import Mathlib

/-!
Verification of the error-propagation shim of the `ctru-rs` repository
(`src/ctru-rs/src/error.rs`).

The shim consists of:
* `LibCtruResult`, a transparent wrapper over a signed 32-bit OS result
  code (`i32`);
* the `Try`/`FromResidual` adaptor operations `from_output`, `branch`
  and `from_residual`;
* the `Error` sum type with variants `Os`, `Libc`,
  `ServiceAlreadyActive`, `OutputAlreadyRedirected`;
* `From` conversions into `Error`, and the `Debug`/`Display` renderings.

Modelling conventions: Rust `i32` values are embedded as `Int` (every
theorem quantified over all of `Int` in particular covers the i32 range
`[-2^31, 2^31)`); the 32-bit two's-complement bit pattern of a code is
recovered explicitly with `toBits` where bitwise operations occur.
Rust's `Result<Infallible, Error>` residual type is embedded as
`Except Error Empty`. Rust formatter output is modelled as explicit
`String` construction.
-/

namespace CtruRs

/-- The two's-complement 32-bit bit pattern of an integer, as in Rust's
formatting and bitwise semantics for `i32` values. -/
def toBits (code : Int) : Nat :=
  (code % (2 ^ 32 : Int)).toNat

/-- The `Error` enum of `error.rs`. `Os` carries a `ctru_sys::Result`
(an `i32`); `Libc` carries an owned message string. -/
inductive Error where
  | Os (code : Int)
  | Libc (message : String)
  | ServiceAlreadyActive
  | OutputAlreadyRedirected
  deriving DecidableEq

/-- The transparent raw wrapper `struct LibCtruResult(pub i32)`. -/
structure LibCtruResult where
  val : Int
  deriving DecidableEq

/-- Rust's `core::ops::ControlFlow`, the return type of `Try::branch`. -/
inductive ControlFlow (B : Type) (C : Type) where
  | Break (residual : B)
  | Continue (output : C)

/-- The residual type declared by the `Try` impl:
`crate::Result<core::convert::Infallible>`, i.e.
`Result<Infallible, Error>`. The success arm is uninhabited. -/
abbrev Residual : Type := Except Error Empty

/-- `impl From<ctru_sys::Result> for Error`: `Error::Os(err)`. -/
def errorFromResultCode (err : Int) : Error :=
  Error.Os err

/-- `impl From<LibCtruResult> for Error`: `Self::Os(err.0)`. -/
def errorFromLibCtruResult (err : LibCtruResult) : Error :=
  Error.Os err.val

namespace LibCtruResult

/-- `Try::from_output` of `LibCtruResult`: `Self(0)`. -/
def from_output (_ : Unit) : LibCtruResult :=
  ⟨0⟩

/-- `Try::branch` of `LibCtruResult`: negative code breaks with
`Err(self.into())`, otherwise continues with `()`. -/
def branch (self : LibCtruResult) : ControlFlow Residual Unit :=
  if self.val < 0 then
    ControlFlow.Break (Except.error (errorFromLibCtruResult self))
  else
    ControlFlow.Continue ()

/-- Rust's `Result::err` on the residual: the `Option Error` that
`e.err()` evaluates to inside `from_residual`. -/
def residualErr (e : Residual) : Option Error :=
  match e with
  | Except.error err => some err
  | Except.ok _ => none

/-- `FromResidual::from_residual`, with the `unwrap` of `e.err()`
modelled as the `Option`-valued partial computation it is in Rust:
`none` stands for a panic of `unwrap`. -/
def from_residualOpt (e : Residual) : Option LibCtruResult :=
  (residualErr e).map fun err =>
    match err with
    | Error.Os result => ⟨result⟩
    | _ => ⟨-1⟩

/-- `FromResidual::from_residual` as the total function it in fact is:
the `Except.ok` arm carries `Empty` and cannot occur. -/
def from_residual (e : Residual) : LibCtruResult :=
  match e with
  | Except.error (Error.Os result) => ⟨result⟩
  | Except.error _ => ⟨-1⟩
  | Except.ok x => nomatch x

end LibCtruResult

end CtruRs

namespace CtruRs

/-- The uppercase hexadecimal digit character for `n < 16`. -/
def hexDigitChar (n : Nat) : Char :=
  if n < 10 then Char.ofNat (48 + n) else Char.ofNat (55 + n)

/-- Uppercase hexadecimal digits of `n`, most significant first, with
no leading zeros (`0` renders as the single digit `0`), driven by
structural fuel; `fuel = 32` is ample for every 32-bit pattern. -/
def hexDigitsAux : Nat → Nat → List Char
  | 0, _ => []
  | fuel + 1, n =>
    if n < 16 then [hexDigitChar n]
    else hexDigitsAux fuel (n / 16) ++ [hexDigitChar (n % 16)]

/-- Uppercase hexadecimal digits of a number below `16 ^ 32`. -/
def hexDigits (n : Nat) : List Char :=
  hexDigitsAux 32 n

/-- Left zero padding to width `w`, as Rust's sign-aware zero padding
inserts after any prefix once the digits are known. -/
def zeroPad (w : Nat) (l : List Char) : List Char :=
  List.replicate (w - l.length) '0' ++ l

/-- Rust `format!("{:08X}", err)` for an `i32`: the 32-bit pattern in
uppercase hexadecimal, zero-padded to exactly width 8 (no prefix). -/
def fmtHex08 (err : Int) : String :=
  String.mk (zeroPad 8 (hexDigits (toBits err)))

/-- Rust `format_args!("{:#08X}", err)` for an `i32`: the alternate
flag adds the `0x` prefix, and the prefix counts toward the total
width of 8, so the digits themselves are zero-padded only to width 6. -/
def fmtAltHex08 (err : Int) : String :=
  "0x" ++ String.mk (zeroPad 6 (hexDigits (toBits err)))

/-- Modelled from the spec: `R_DESCRIPTION` lives in the external
`ctru_sys::result` module, which is not under `src/`; the spec gives
`description = code & 0x3FF`. Rust's `&` on `i32` acts on the
two's-complement pattern, and the mask keeps only bits 0..9. -/
def R_DESCRIPTION (code : Int) : Int :=
  Int.ofNat (toBits code &&& 0x3FF)

/-- Modelled from the spec: `R_MODULE` of `ctru_sys::result`, given as
`module = (code >> 10) & 0xFF`. Rust's arithmetic right shift on `i32`
followed by this mask keeps bits 10..17 of the pattern, which agrees
with the logical shift on the pattern since 10 + 8 ≤ 32. -/
def R_MODULE (code : Int) : Int :=
  Int.ofNat ((toBits code >>> 10) &&& 0xFF)

/-- Modelled from the spec: `R_SUMMARY` of `ctru_sys::result`, given as
`summary = (code >> 21) & 0x3F`, keeping bits 21..26 of the pattern
(21 + 6 ≤ 32, so arithmetic and logical shift agree under the mask). -/
def R_SUMMARY (code : Int) : Int :=
  Int.ofNat ((toBits code >>> 21) &&& 0x3F)

/-- Modelled from the spec: `R_LEVEL` of `ctru_sys::result`, given as
`level = (code >> 27) & 0x1F`, keeping bits 27..31 of the pattern. -/
def R_LEVEL (code : Int) : Int :=
  Int.ofNat ((toBits code >>> 27) &&& 0x1F)

/-- `impl fmt::Display for Error` as a string-valued function. The `Os`
arm is `write!(f, "libctru result code: 0x{:08X}", err)`. -/
def display : Error → String
  | Error.Os err => "libctru result code: 0x" ++ fmtHex08 err
  | Error.Libc err => err
  | Error.ServiceAlreadyActive => "Service already active"
  | Error.OutputAlreadyRedirected =>
    "output streams are already redirected to 3dslink"

/-- `impl fmt::Debug for Error` as a string-valued function. The `Os`
arm is `debug_struct("Error")` with the `raw` field formatted by
`format_args!("{:#08X}", err)` and the four decoded fields; the
non-alternate `debug_struct` rendering is
`Error \x7b raw: R, description: D, module: M, summary: S, level: L \x7d`. -/
def debug : Error → String
  | Error.Os err =>
    "Error \x7b raw: " ++ fmtAltHex08 err ++
      ", description: " ++ toString (R_DESCRIPTION err) ++
      ", module: " ++ toString (R_MODULE err) ++
      ", summary: " ++ toString (R_SUMMARY err) ++
      ", level: " ++ toString (R_LEVEL err) ++ " \x7d"
  | Error.Libc err => "Libc(" ++ String.quote err ++ ")"
  | Error.ServiceAlreadyActive => "ServiceAlreadyActive"
  | Error.OutputAlreadyRedirected => "OutputAlreadyRedirected"

/-- Recognizer for an uppercase hexadecimal digit character. -/
def isUpperHexDigit (c : Char) : Bool :=
  (decide ('0' ≤ c) && decide (c ≤ '9')) ||
    (decide ('A' ≤ c) && decide (c ≤ 'F'))

theorem hexDigitChar_upperHex :
    ∀ n, n < 16 → isUpperHexDigit (hexDigitChar n) = true := by
  decide

theorem hexDigitsAux_mem (fuel : Nat) :
    ∀ n : Nat, ∀ c ∈ hexDigitsAux fuel n, isUpperHexDigit c = true := by
  induction fuel with
  | zero =>
    intro n c hc
    simp [hexDigitsAux] at hc
  | succ f ih =>
    intro n c hc
    by_cases h16 : n < 16
    · simp [hexDigitsAux, h16] at hc
      subst hc
      exact hexDigitChar_upperHex n h16
    · simp [hexDigitsAux, h16] at hc
      rcases hc with hc | hc
      · exact ih (n / 16) c hc
      · subst hc
        exact hexDigitChar_upperHex (n % 16) (Nat.mod_lt _ (by norm_num))

theorem hexDigitsAux_length_le :
    ∀ k fuel n : Nat, 0 < k → k ≤ fuel → n < 16 ^ k →
      (hexDigitsAux fuel n).length ≤ k := by
  intro k
  induction k with
  | zero =>
    intro fuel n hk _ _
    exact absurd hk (by omega)
  | succ k ih =>
    intro fuel n _ hfuel hn
    obtain ⟨f, rfl⟩ : ∃ f, fuel = f + 1 := ⟨fuel - 1, by omega⟩
    by_cases h16 : n < 16
    · simp [hexDigitsAux, h16]
    · have hk : 0 < k := by
        rcases Nat.eq_zero_or_pos k with hk0 | hk0
        · subst hk0
          norm_num at hn
          exact absurd hn h16
        · exact hk0
      have hdiv : n / 16 < 16 ^ k := by
        rw [Nat.div_lt_iff_lt_mul (by norm_num : 0 < 16)]
        calc n < 16 ^ (k + 1) := hn
          _ = 16 ^ k * 16 := by rw [pow_succ]
      have hlen := ih f (n / 16) hk (by omega) hdiv
      simp [hexDigitsAux, h16]
      omega

theorem hexDigits_length_le (n : Nat) (h : n < 16 ^ 8) :
    (hexDigits n).length ≤ 8 :=
  hexDigitsAux_length_le 8 32 n (by norm_num) (by norm_num) h

theorem hexDigits_mem (n : Nat) :
    ∀ c ∈ hexDigits n, isUpperHexDigit c = true :=
  hexDigitsAux_mem 32 n

theorem zeroPad_length (w : Nat) (l : List Char) :
    (zeroPad w l).length = max w l.length := by
  simp [zeroPad]
  omega

theorem zeroPad_mem (w : Nat) (l : List Char)
    (hl : ∀ c ∈ l, isUpperHexDigit c = true) :
    ∀ c ∈ zeroPad w l, isUpperHexDigit c = true := by
  intro c hc
  simp [zeroPad] at hc
  rcases hc with hc | hc
  · rw [hc.2]
    decide
  · exact hl c hc

theorem toBits_lt (code : Int) : toBits code < 16 ^ 8 := by
  have h1 : 0 ≤ code % (2 ^ 32 : Int) := Int.emod_nonneg code (by norm_num)
  have h2 : code % (2 ^ 32 : Int) < (2 ^ 32 : Int) :=
    Int.emod_lt_of_pos code (by norm_num)
  unfold toBits
  norm_num at h1 h2 ⊢
  omega

/-- Claim C1: for every code, `branch` on `LibCtruResult(code)` yields
`Continue(())` exactly when the code is non-negative, and for every
negative code it yields `Break` carrying the residual
`Err(Error::Os(code))` with the same numeric code. -/
theorem C1_branch_continue_iff_nonneg (code : Int) :
    (LibCtruResult.branch ⟨code⟩ = ControlFlow.Continue () ↔ 0 ≤ code) ∧
      (code < 0 →
        LibCtruResult.branch ⟨code⟩ =
          ControlFlow.Break (Except.error (Error.Os code))) := by
  constructor
  · constructor
    · intro h
      by_contra hneg
      push_neg at hneg
      simp [LibCtruResult.branch, hneg] at h
    · intro h
      have hlt : ¬ code < 0 := by omega
      simp [LibCtruResult.branch, hlt]
  · intro h
    simp [LibCtruResult.branch, h, errorFromLibCtruResult]

/-- Witness for C1 at the concrete codes `3` (success) and `-5`
(failure). -/
theorem C1_branch_continue_iff_nonneg_witness :
    LibCtruResult.branch ⟨3⟩ = ControlFlow.Continue () ∧
      LibCtruResult.branch ⟨-5⟩ =
        ControlFlow.Break (Except.error (Error.Os (-5))) :=
  ⟨(C1_branch_continue_iff_nonneg 3).1.2 (by decide),
    (C1_branch_continue_iff_nonneg (-5)).2 (by decide)⟩

/-- Claim C2: rebuilding a wrapper from a residual carrying
`Error::Os(code)` (for negative `code`) reproduces exactly that code,
while a residual carrying any other variant rebuilds to
`LibCtruResult(-1)`. -/
theorem C2_from_residual_asymmetric :
    (∀ code : Int, code < 0 →
        LibCtruResult.from_residual (Except.error (Error.Os code)) = ⟨code⟩) ∧
      (∀ message : String,
        LibCtruResult.from_residual (Except.error (Error.Libc message)) = ⟨-1⟩) ∧
      LibCtruResult.from_residual (Except.error Error.ServiceAlreadyActive) = ⟨-1⟩ ∧
      LibCtruResult.from_residual (Except.error Error.OutputAlreadyRedirected) = ⟨-1⟩ := by
  refine ⟨fun code _ => rfl, fun message => rfl, rfl, rfl⟩

/-- Witness for C2 at the concrete code `-7` and at the
`ServiceAlreadyActive` variant. -/
theorem C2_from_residual_asymmetric_witness :
    LibCtruResult.from_residual (Except.error (Error.Os (-7))) = ⟨-7⟩ ∧
      LibCtruResult.from_residual (Except.error Error.ServiceAlreadyActive) = ⟨-1⟩ :=
  ⟨C2_from_residual_asymmetric.1 (-7) (by decide),
    C2_from_residual_asymmetric.2.2.1⟩

/-- Claim C7: `from_output` applied to the unit continuation value
always produces the wrapper holding exactly `0`. -/
theorem C7_from_output_zero (u : Unit) :
    LibCtruResult.from_output u = ⟨0⟩ :=
  rfl

/-- Claim C8: converting an OS result code to `Error` yields `Os` with
that code, converting the wrapper `LibCtruResult(code)` yields
`Error::Os(code)` with the wrapper's code, and the two routes agree
for every code. -/
theorem C8_from_conversions_agree (code : Int) :
    errorFromResultCode code = Error.Os code ∧
      errorFromLibCtruResult ⟨code⟩ = Error.Os code ∧
      errorFromResultCode code = errorFromLibCtruResult ⟨code⟩ :=
  ⟨rfl, rfl, rfl⟩

/-- Claim C9: `from_residual` is total and never panics: every residual
of type `Result<Infallible, Error>` is an `Err`, so the
`e.err().unwrap()` computation always succeeds and agrees with the
total function. -/
theorem C9_from_residual_total (e : Residual) :
    (∃ err : Error, e = Except.error err) ∧
      LibCtruResult.from_residualOpt e = some (LibCtruResult.from_residual e) := by
  match e with
  | Except.error err =>
    refine ⟨⟨err, rfl⟩, ?_⟩
    cases err <;> rfl
  | Except.ok x => exact x.elim

/-- Claim C10: the `Try` identity law: branching the wrapper produced
by `from_output` yields `Continue(())`. -/
theorem C10_branch_from_output :
    LibCtruResult.branch (LibCtruResult.from_output ()) =
      ControlFlow.Continue () :=
  rfl

/-- Claim C3 counterexample: the i32 whose 32-bit pattern is
`0xD8E007EE` is `-656406546`; on it the spec's own formulas give
description `0x3EE` (1006), module `0x01` (1) and summary `0x07` (7),
refuting the claimed `0x1EE` (494), `0x1F` (31) and `0x38` (56); only
the claimed level `0x1B` (27) is right. -/
theorem C3_counterexample :
    R_DESCRIPTION (-656406546) ≠ 494 ∧
      R_MODULE (-656406546) ≠ 31 ∧
      R_SUMMARY (-656406546) ≠ 56 ∧
      R_LEVEL (-656406546) = 27 := by
  decide

/-- Claim C3 (amended): decoding the OS result code whose 32-bit
pattern is `0xD8E007EE` (the i32 value `-656406546`) with the four
extraction functions yields description = `0x3EE` (1006), module =
`0x01` (1), summary = `0x07` (7), level = `0x1B` (27); the same values
result when the pattern is fed in directly as a non-negative integer. -/
theorem C3_decode_D8E007EE :
    R_DESCRIPTION (-656406546) = 0x3EE ∧
      R_MODULE (-656406546) = 0x01 ∧
      R_SUMMARY (-656406546) = 0x07 ∧
      R_LEVEL (-656406546) = 0x1B ∧
      R_DESCRIPTION 0xD8E007EE = 0x3EE ∧
      R_MODULE 0xD8E007EE = 0x01 ∧
      R_SUMMARY 0xD8E007EE = 0x07 ∧
      R_LEVEL 0xD8E007EE = 0x1B := by
  decide

/-- Claim C4 counterexample: for the code `0` the `raw` field of the
Debug rendering is `0x000000` — the `#` alternate flag makes the `0x`
prefix count toward the width of 8, leaving only six hex digits — and
not the eight-digit `0x00000000` the claim requires for every code. -/
theorem C4_counterexample :
    fmtAltHex08 0 = "0x000000" ∧
      fmtAltHex08 0 ≠ "0x00000000" ∧
      debug (Error.Os 0) =
        "Error \x7b raw: 0x000000, description: 0, module: 0, summary: 0, level: 0 \x7d" := by
  refine ⟨rfl, ?_, rfl⟩
  decide

/-- Claim C4 (amended): for every code, the Debug rendering of
`Error::Os(code)` is a structured record with the fields `raw`,
`description`, `module`, `summary` and `level`, where `raw` is `0x`
followed by between six and eight uppercase hexadecimal digits of the
32-bit pattern (zero-padded to a total field width of 8 including the
`0x` prefix, hence exactly eight digits only for patterns of eight hex
digits). -/
theorem C4_debug_os_structure (code : Int) :
    ∃ l : List Char,
      debug (Error.Os code) =
          "Error \x7b raw: " ++ ("0x" ++ String.mk l) ++
            ", description: " ++ toString (R_DESCRIPTION code) ++
            ", module: " ++ toString (R_MODULE code) ++
            ", summary: " ++ toString (R_SUMMARY code) ++
            ", level: " ++ toString (R_LEVEL code) ++ " \x7d" ∧
        6 ≤ l.length ∧ l.length ≤ 8 ∧
        ∀ c ∈ l, isUpperHexDigit c = true := by
  refine ⟨zeroPad 6 (hexDigits (toBits code)), rfl, ?_, ?_, ?_⟩
  · rw [zeroPad_length]
    omega
  · rw [zeroPad_length]
    have h := hexDigits_length_le (toBits code) (toBits_lt code)
    omega
  · exact zeroPad_mem 6 _ (hexDigits_mem (toBits code))

/-- Witness for the amended C4 at the concrete code whose pattern is
`0xD8E007EE`. -/
theorem C4_debug_os_structure_witness :
    ∃ l : List Char,
      debug (Error.Os (-656406546)) =
          "Error \x7b raw: " ++ ("0x" ++ String.mk l) ++
            ", description: " ++ toString (R_DESCRIPTION (-656406546)) ++
            ", module: " ++ toString (R_MODULE (-656406546)) ++
            ", summary: " ++ toString (R_SUMMARY (-656406546)) ++
            ", level: " ++ toString (R_LEVEL (-656406546)) ++ " \x7d" ∧
        6 ≤ l.length ∧ l.length ≤ 8 ∧
        ∀ c ∈ l, isUpperHexDigit c = true :=
  C4_debug_os_structure (-656406546)

/-- Claim C5: the Display rendering of `Error::Os(code)` is the
template `libctru result code: 0x` followed by exactly eight uppercase
hexadecimal digits of the code's 32-bit two's-complement pattern,
zero-padded; in particular `Os(-1)` displays as
`libctru result code: 0xFFFFFFFF` and `Os(0)` as
`libctru result code: 0x00000000`. -/
theorem C5_display_os_format (code : Int) :
    display (Error.Os code) =
        "libctru result code: 0x" ++
          String.mk (zeroPad 8 (hexDigits (toBits code))) ∧
      (zeroPad 8 (hexDigits (toBits code))).length = 8 ∧
      (∀ c ∈ zeroPad 8 (hexDigits (toBits code)), isUpperHexDigit c = true) ∧
      display (Error.Os (-1)) = "libctru result code: 0xFFFFFFFF" ∧
      display (Error.Os 0) = "libctru result code: 0x00000000" := by
  refine ⟨rfl, ?_, ?_, by decide, by decide⟩
  · rw [zeroPad_length]
    have h := hexDigits_length_le (toBits code) (toBits_lt code)
    omega
  · exact zeroPad_mem 8 _ (hexDigits_mem (toBits code))

/-- Witness for C5: the concrete renderings of `Os(-1)` and `Os(0)`,
and the hex-digit property discharged at the digit `F` of the former. -/
theorem C5_display_os_format_witness :
    display (Error.Os (-1)) = "libctru result code: 0xFFFFFFFF" ∧
      display (Error.Os 0) = "libctru result code: 0x00000000" ∧
      isUpperHexDigit 'F' = true :=
  ⟨(C5_display_os_format 0).2.2.2.1,
    (C5_display_os_format 0).2.2.2.2,
    (C5_display_os_format (-1)).2.2.1 'F' (by decide)⟩

/-- Claim C6: `ServiceAlreadyActive` displays exactly as
`Service already active`, `OutputAlreadyRedirected` exactly as
`output streams are already redirected to 3dslink`, and
`Libc(message)` as the message verbatim, for every message. -/
theorem C6_display_unit_variants (message : String) :
    display Error.ServiceAlreadyActive = "Service already active" ∧
      display Error.OutputAlreadyRedirected =
        "output streams are already redirected to 3dslink" ∧
      display (Error.Libc message) = message :=
  ⟨rfl, rfl, rfl⟩

end CtruRs
